import Mathlib

/-!
Verification of `src/ESP32/config_template.h` from the SmartParking
repository.  The header is a flat list of compile-time constants; each
`#define` is embedded as a Lean definition with the same name and value.
Pin numbers are modelled as `Int` (one pin is `-1`, denoting "unused");
other integral constants are `Int` or `Nat` exactly as the C preprocessor
literals read; string constants are `String`.
-/

-- ========== WiFi Configuration ==========

def WIFI_SSID : String := "YOUR_WIFI_SSID"

def WIFI_PASSWORD : String := "YOUR_WIFI_PASSWORD"

-- ========== Server Configuration ==========

def HTTP_PORT : Nat := 81

def DEVICE_NAME : String := "esp32cam"

-- ========== Camera Configuration ==========

def JPEG_QUALITY : Int := 12

def FRAME_DELAY_MS : Nat := 33

-- ========== Hardware Configuration (AI-Thinker ESP32-CAM pins) ==========

def PWDN_GPIO_NUM : Int := 32

def RESET_GPIO_NUM : Int := -1

def XCLK_GPIO_NUM : Int := 0

def SIOD_GPIO_NUM : Int := 26

def SIOC_GPIO_NUM : Int := 27

def Y9_GPIO_NUM : Int := 35

def Y8_GPIO_NUM : Int := 34

def Y7_GPIO_NUM : Int := 39

def Y6_GPIO_NUM : Int := 36

def Y5_GPIO_NUM : Int := 21

def Y4_GPIO_NUM : Int := 19

def Y3_GPIO_NUM : Int := 18

def Y2_GPIO_NUM : Int := 5

def VSYNC_GPIO_NUM : Int := 25

def HREF_GPIO_NUM : Int := 23

def PCLK_GPIO_NUM : Int := 22

/-- The sixteen camera control/data pin constants, in header order. -/
def cameraPins : List Int :=
  [ PWDN_GPIO_NUM, RESET_GPIO_NUM, XCLK_GPIO_NUM, SIOD_GPIO_NUM,
    SIOC_GPIO_NUM, Y9_GPIO_NUM, Y8_GPIO_NUM, Y7_GPIO_NUM,
    Y6_GPIO_NUM, Y5_GPIO_NUM, Y4_GPIO_NUM, Y3_GPIO_NUM,
    Y2_GPIO_NUM, VSYNC_GPIO_NUM, HREF_GPIO_NUM, PCLK_GPIO_NUM ]

-- ========== Features ==========

def ENABLE_MDNS : Nat := 1

def ENABLE_OTA : Nat := 0

def ENABLE_SERIAL : Nat := 1

def LED_FLASH_GPIO : Int := 4

def ENABLE_FLASH : Nat := 0

-- ========== Advanced Settings ==========

def CAM_BRIGHTNESS : Int := 0

def CAM_CONTRAST : Int := 0

def CAM_SATURATION : Int := 0

def CAM_SHARPNESS : Int := 0

def CAM_DENOISE : Nat := 0

def CAM_AE_LEVEL : Int := 0

def CAM_GAIN_CEILING : Int := 0

def WATCHDOG_TIMEOUT : Nat := 30

-- ========== API Configuration ==========

def CORS_ORIGIN : String := "*"

def ENABLE_AUTH : Nat := 0

def API_KEY : String := "your_secret_api_key_here"

/-! ## Claims -/

/-- C1: the sixteen camera pin-assignment constants are pairwise distinct
integers, and every one of them is non-negative except `RESET_GPIO_NUM`,
which equals `-1` denoting "unused". -/
theorem camera_pins_distinct_and_nonneg :
    cameraPins.Nodup ∧ RESET_GPIO_NUM = -1 ∧
      ∀ p ∈ cameraPins, p = RESET_GPIO_NUM ∨ 0 ≤ p := by
  decide

/-- C2: the sixteen camera pin constants carry exactly the AI-Thinker
ESP32-CAM reference wiring values. -/
theorem camera_pins_ai_thinker :
    PWDN_GPIO_NUM = 32 ∧ RESET_GPIO_NUM = -1 ∧ XCLK_GPIO_NUM = 0 ∧
    SIOD_GPIO_NUM = 26 ∧ SIOC_GPIO_NUM = 27 ∧ Y9_GPIO_NUM = 35 ∧
    Y8_GPIO_NUM = 34 ∧ Y7_GPIO_NUM = 39 ∧ Y6_GPIO_NUM = 36 ∧
    Y5_GPIO_NUM = 21 ∧ Y4_GPIO_NUM = 19 ∧ Y3_GPIO_NUM = 18 ∧
    Y2_GPIO_NUM = 5 ∧ VSYNC_GPIO_NUM = 25 ∧ HREF_GPIO_NUM = 23 ∧
    PCLK_GPIO_NUM = 22 := by
  decide

/-- C3: `JPEG_QUALITY` lies within its documented valid range `[10, 63]`. -/
theorem jpeg_quality_in_range :
    10 ≤ JPEG_QUALITY ∧ JPEG_QUALITY ≤ 63 := by
  decide

/-- C4: every camera sensor tuning constant lies within its documented
range: brightness, contrast, saturation, sharpness and auto-exposure level
are each in `[-2, 2]`, and the gain ceiling is in `[0, 6]`. -/
theorem sensor_tuning_in_range :
    (-2 ≤ CAM_BRIGHTNESS ∧ CAM_BRIGHTNESS ≤ 2) ∧
    (-2 ≤ CAM_CONTRAST ∧ CAM_CONTRAST ≤ 2) ∧
    (-2 ≤ CAM_SATURATION ∧ CAM_SATURATION ≤ 2) ∧
    (-2 ≤ CAM_SHARPNESS ∧ CAM_SHARPNESS ≤ 2) ∧
    (-2 ≤ CAM_AE_LEVEL ∧ CAM_AE_LEVEL ≤ 2) ∧
    (0 ≤ CAM_GAIN_CEILING ∧ CAM_GAIN_CEILING ≤ 6) := by
  decide

/-- C5: the HTTP server port constant equals 81, the documented default. -/
theorem http_port_default : HTTP_PORT = 81 := by
  rfl

/-- C6: every feature-toggle constant is boolean-like, that is each of the
mDNS, OTA, serial, flash and auth toggles and the denoise switch equals
`0` or `1`. -/
theorem feature_toggles_boolean :
    (ENABLE_MDNS = 0 ∨ ENABLE_MDNS = 1) ∧
    (ENABLE_OTA = 0 ∨ ENABLE_OTA = 1) ∧
    (ENABLE_SERIAL = 0 ∨ ENABLE_SERIAL = 1) ∧
    (ENABLE_FLASH = 0 ∨ ENABLE_FLASH = 1) ∧
    (ENABLE_AUTH = 0 ∨ ENABLE_AUTH = 1) ∧
    (CAM_DENOISE = 0 ∨ CAM_DENOISE = 1) := by
  decide

/-- C7: the device-name constant equals the string `"esp32cam"`, matching
the documented mDNS hostname `esp32cam.local`. -/
theorem device_name_is_esp32cam : DEVICE_NAME = "esp32cam" := by
  rfl

/-- C8: the flash-LED pin (value 4) is distinct from all sixteen camera
control/data pin constants, so enabling the flash LED cannot conflict with
any camera GPIO assignment. -/
theorem flash_led_pin_distinct :
    LED_FLASH_GPIO = 4 ∧ ∀ p ∈ cameraPins, LED_FLASH_GPIO ≠ p := by
  decide

/-- C9: with `FRAME_DELAY_MS = 33`, truncating integer division of 1000
milliseconds by the inter-frame delay yields exactly 30 frames per
second. -/
theorem frame_delay_gives_30_fps :
    FRAME_DELAY_MS = 33 ∧ 1000 / FRAME_DELAY_MS = 30 := by
  decide

/-- C10: every feature the header marks "not implemented yet" is disabled
by default: the OTA and auth toggles both equal 0. -/
theorem unimplemented_features_disabled :
    ENABLE_OTA = 0 ∧ ENABLE_AUTH = 0 := by
  decide
